import Mathlib

/-!
Verification of the Timestamp Camera PWA app logic.

The repository ships two near-duplicate variants of the single app-logic
module (`src/unnamed/part_000`, which additionally has flash/torch support,
and `src/unnamed/part_001`, which additionally renders a live timestamp
overlay).  Where the two variants agree the functions are embedded once;
where they differ (`formatDateTime`) both variants are embedded with `_v0`
(part_000) and `_v1` (part_001) suffixes.

Machine-level conventions of the embedding:
* a JavaScript `Date` value is `Option JSDateTime`: `none` is an Invalid
  Date (`isNaN(d.getTime())`), `some d` carries the local-time component
  accessors (`getFullYear`, `getMonth` (0-based), `getDate`, `getHours`,
  `getMinutes`, `getSeconds`);
* `String(n)` on a non-negative number is `Nat.repr`;
* JSON values produced by `JSON.parse` are modelled by the inductive
  `JSValue`; JavaScript truthiness of such a value is `truthy`;
* the browser pieces that are not part of the repository (the camera
  stream, the JPEG encoder behind `canvas.toBlob`, `JSON.parse`, the
  native share dialog) enter the model as parameters: the frame
  dimensions, the encoder result, the parsed stored value, the share
  outcome.
-/

namespace TsCamera

/-- Local-time view of a valid JavaScript `Date`: the values returned by
`getFullYear`, `getMonth` (0-based), `getDate` (1-based), `getHours`,
`getMinutes` and `getSeconds`. -/
structure JSDateTime where
  year : Nat
  month0 : Nat
  day : Nat
  hour : Nat
  minute : Nat
  second : Nat
deriving DecidableEq

/-- JS `s.padStart(2, '0')`: pad on the left with `'0'` up to length 2. -/
def padStart2 (s : String) : String :=
  if 2 ≤ s.length then s else String.mk (List.replicate (2 - s.length) '0') ++ s

/-- `formatDateTime` of part_000 (lines 282-291):
`${day}/${month}/${year} ${hours}:${minutes}` with day, month, hours and
minutes zero-padded to two characters; the empty string on an invalid
date (`isNaN(d.getTime())`). -/
def formatDateTime_v0 : Option JSDateTime → String
  | none => ""
  | some d =>
    let day := padStart2 (Nat.repr d.day)
    let month := padStart2 (Nat.repr (d.month0 + 1))
    let year := Nat.repr d.year
    let hours := padStart2 (Nat.repr d.hour)
    let minutes := padStart2 (Nat.repr d.minute)
    day ++ "/" ++ month ++ "/" ++ year ++ " " ++ hours ++ ":" ++ minutes

/-- `formatDateTime` of part_001 (lines 222-232):
`${year}-${month}-${day} ${hours}:${minutes}:${seconds}` with month, day,
hours, minutes and seconds zero-padded to two characters; the empty string
on an invalid date. -/
def formatDateTime_v1 : Option JSDateTime → String
  | none => ""
  | some d =>
    let year := Nat.repr d.year
    let month := padStart2 (Nat.repr (d.month0 + 1))
    let day := padStart2 (Nat.repr d.day)
    let hours := padStart2 (Nat.repr d.hour)
    let minutes := padStart2 (Nat.repr d.minute)
    let seconds := padStart2 (Nat.repr d.second)
    year ++ "-" ++ month ++ "-" ++ day ++ " " ++ hours ++ ":" ++ minutes ++ ":" ++ seconds

/-- `getTimestampText` (part_000 lines 271-280, part_001 lines 211-220; the
two copies are identical except for which `formatDateTime` is in scope, so
the formatter is a parameter here).  `parseDate` stands for the external
JS date parser invoked by `new Date(customDateTime)`; `now` is the (always
valid) value of `new Date()`.  The JS truthiness test `customDateTime` on
a string is `customDateTime ≠ ""`. -/
def getTimestampText (fmt : Option JSDateTime → String)
    (parseDate : String → Option JSDateTime) (now : JSDateTime)
    (timestampEnabled : Bool) (timestampMode customDateTime : String) : String :=
  if timestampEnabled = false then ""
  else if timestampMode = "custom" ∧ customDateTime ≠ "" then fmt (parseDate customDateTime)
  else fmt (some now)

/-- `getTimestampText` as it reads in part_000. -/
def getTimestampText_v0 : (String → Option JSDateTime) → JSDateTime → Bool → String → String → String :=
  getTimestampText formatDateTime_v0

/-- `getTimestampText` as it reads in part_001. -/
def getTimestampText_v1 : (String → Option JSDateTime) → JSDateTime → Bool → String → String → String :=
  getTimestampText formatDateTime_v1

/-- Outcome of a successful run of `capturePhoto` (part_000 lines 303-362,
part_001 lines 255-317; identical control flow) up to the `toBlob` call:
the off-screen canvas dimensions, whether the 90-degree rotation and the
front-camera mirroring transforms were applied, the timestamp text that
was drawn (`none` when the text was empty and the draw was skipped), and
the arguments of the `toBlob` export call. -/
structure CaptureResult where
  canvasW : Nat
  canvasH : Nat
  rotated : Bool
  mirrored : Bool
  timestampText : Option String
  mime : String
  quality : ℚ
deriving DecidableEq

/-- `capturePhoto` up to the `toBlob` call.  Inputs: `video.videoWidth`,
`video.videoHeight`, `window.innerWidth`, `window.innerHeight`, the
`facingMode` state variable and the timestamp text returned by
`getTimestampText`.  Returns `none` when the early `if (!vw || !vh) return`
fires (frame not ready). -/
def capturePhoto (videoWidth videoHeight innerWidth innerHeight : Nat)
    (facingMode : String) (text : String) : Option CaptureResult :=
  if videoWidth = 0 ∨ videoHeight = 0 then none
  else
    let isPortrait := innerWidth < innerHeight
    let videoIsLandscape := videoHeight < videoWidth
    let needsRotation := isPortrait ∧ videoIsLandscape
    let canvasW := if needsRotation then videoHeight else videoWidth
    let canvasH := if needsRotation then videoWidth else videoHeight
    some { canvasW := canvasW, canvasH := canvasH,
           rotated := decide needsRotation,
           mirrored := decide (facingMode = "user"),
           timestampText := if text = "" then none else some text,
           mime := "image/jpeg", quality := 92 / 100 }

/-- The horizontal reflection of the raw sensor frame about the vertical
centre line of its `[0, videoWidth]` span: the effect on a source point of
`ctx.translate(vw, 0); ctx.scale(-1, 1)`. -/
def hmirror (videoWidth : Nat) (p : Int × Int) : Int × Int :=
  ((videoWidth : Int) - p.1, p.2)

/-- Source-pixel to canvas-pixel mapping of the `drawImage` call in
`capturePhoto`.  The canvas context applies the transform calls to a drawn
point from the last call installed to the first, so a source point first
goes through the front-camera mirror (`ctx.translate(vw, 0);
ctx.scale(-1, 1)`, installed only when `facingMode === 'user'`) and then
through the rotation (`ctx.translate(canvasW, 0); ctx.rotate(Math.PI / 2)`
with `canvasW = videoHeight` in the rotating branch, sending `(x, y)` to
`(canvasW - y, x)`; the exact 90-degree rotation stands in for
`Math.PI / 2` floating-point trigonometry). -/
def captureDrawMap (videoWidth videoHeight innerWidth innerHeight : Nat)
    (facingMode : String) (p : Int × Int) : Int × Int :=
  let needsRotation := innerWidth < innerHeight ∧ videoHeight < videoWidth
  let p1 := if facingMode = "user" then hmirror videoWidth p else p
  if needsRotation then ((videoHeight : Int) - p1.2, p1.1) else p1

/-- Content of the full-panel camera overlay produced by
`showCameraOverlay(title, message, buttonText)` (part_000 lines 219-261):
heading text, body text, and the retry button label (`none` when
`buttonText` is `null` and no button is rendered). -/
structure Overlay where
  title : String
  message : String
  button : Option String
deriving DecidableEq

/-- The mutable capture/preview/error state touched by `capturePhoto`,
`sharePhoto` and `showCameraOverlay`: the `capturedBlob` state variable
(blob identity abstracted to a number), whether `previewOverlay` has the
`hidden` class removed, and the camera error overlay if one is shown. -/
structure PhotoState where
  capturedBlob : Option Nat
  previewShown : Bool
  cameraOverlay : Option Overlay
deriving DecidableEq

/-- State effect of one `capturePhoto` run.  `encodeResult` is the blob
the external JPEG encoder hands to the `toBlob` callback (`none` models
encoding yielding no blob, upon which the callback returns at
`if (!blob) return`). -/
def capturePhotoRun (videoWidth videoHeight innerWidth innerHeight : Nat)
    (facingMode text : String) (encodeResult : Option Nat) (st : PhotoState) : PhotoState :=
  match capturePhoto videoWidth videoHeight innerWidth innerHeight facingMode text with
  | none => st
  | some _ =>
    match encodeResult with
    | none => st
    | some b => { st with capturedBlob := some b, previewShown := true }

/-- Resolution of the `navigator.share` promise: fulfilled, or rejected
with an error of the given `name` (`"AbortError"` when the user dismisses
the native dialog). -/
inductive ShareOutcome
  | shared
  | errorNamed (name : String)
deriving DecidableEq

/-- `sharePhoto` (part_000 lines 390-405, part_001 lines 345-361).  First
component of the result: the state after the run; second component:
whether `console.error('Share error:', err)` was invoked. -/
def sharePhoto (hasShareApi : Bool) (outcome : ShareOutcome) (st : PhotoState) :
    PhotoState × Bool :=
  if st.capturedBlob = none ∨ hasShareApi = false then (st, false)
  else
    match outcome with
    | .shared => (st, false)
    | .errorNamed n => (st, decide (n ≠ "AbortError"))

/-- A way `startCamera` can fail: the media-devices API is missing
entirely (the `!navigator.mediaDevices || !navigator.mediaDevices.getUserMedia`
check), or `getUserMedia` rejected with an error whose `name` is given. -/
inductive CameraFailure
  | apiUnsupported
  | errorNamed (name : String)
deriving DecidableEq

/-- The overlay `startCamera` shows for each failure (part_000 lines
92-156): the `showCameraOverlay(...)` call of the matching branch. -/
def startCameraFailureOverlay : CameraFailure → Overlay
  | .apiUnsupported =>
    { title := "Camera not available",
      message := "Your browser does not support camera access. Make sure you are using HTTPS or localhost.",
      button := none }
  | .errorNamed n =>
    if n = "NotAllowedError" ∨ n = "PermissionDeniedError" then
      { title := "Camera access denied",
        message := "Please allow camera access in your browser settings, then tap below to retry.",
        button := some "Grant Camera Access" }
    else if n = "NotFoundError" ∨ n = "DevicesNotFoundError" then
      { title := "No camera found",
        message := "No camera was detected on this device.",
        button := some "Try Again" }
    else
      { title := "Camera error",
        message := "Unable to start the camera. Tap below to try again.",
        button := some "Start Camera" }

/-- Handlers the error-overlay UI can install. -/
inductive UIAction
  | startCameraAction
deriving DecidableEq

/-- Click handler of the overlay retry button: `showCameraOverlay` renders
a `#cameraRetryBtn` exactly when a button text was supplied, and then
installs a click listener that re-invokes `startCamera` (part_000 lines
255-260). -/
def overlayRetryAction (o : Overlay) : Option UIAction :=
  match o.button with
  | some _ => some .startCameraAction
  | none => none

/-- The four spec-level failure classes of `startCamera`. -/
inductive FailureKind
  | permissionDenied
  | noDevice
  | unsupportedApi
  | other
deriving DecidableEq

/-- Which spec-level class each failure falls into, following the branch
structure of `startCamera`. -/
def classifyFailure : CameraFailure → FailureKind
  | .apiUnsupported => .unsupportedApi
  | .errorNamed n =>
    if n = "NotAllowedError" ∨ n = "PermissionDeniedError" then .permissionDenied
    else if n = "NotFoundError" ∨ n = "DevicesNotFoundError" then .noDevice
    else .other

/-- The overlay shown for each failure class. -/
def overlayOfKind : FailureKind → Overlay
  | .unsupportedApi =>
    { title := "Camera not available",
      message := "Your browser does not support camera access. Make sure you are using HTTPS or localhost.",
      button := none }
  | .permissionDenied =>
    { title := "Camera access denied",
      message := "Please allow camera access in your browser settings, then tap below to retry.",
      button := some "Grant Camera Access" }
  | .noDevice =>
    { title := "No camera found",
      message := "No camera was detected on this device.",
      button := some "Try Again" }
  | .other =>
    { title := "Camera error",
      message := "Unable to start the camera. Tap below to try again.",
      button := some "Start Camera" }

/-- A JSON value as produced by `JSON.parse`. -/
inductive JSValue
  | nullV
  | boolV (b : Bool)
  | numV (n : Int)
  | strV (s : String)
  | arrV (elems : List JSValue)
  | objV (fields : List (String × JSValue))

/-- JavaScript truthiness of a parsed JSON value (`NaN` cannot arise from
`JSON.parse`, and every object or array is truthy). -/
def truthy : JSValue → Bool
  | .nullV => false
  | .boolV b => b
  | .numV n => decide (n ≠ 0)
  | .strV s => decide (s ≠ "")
  | .arrV _ => true
  | .objV _ => true

/-- First binding of a key in a JSON object literal (the shape
`JSON.parse` yields for the objects written by `saveSettings`). -/
def lookupField : List (String × JSValue) → String → Option JSValue
  | [], _ => none
  | (k, v) :: rest, key => if k = key then some v else lookupField rest key

/-- JavaScript property access `data.key` on a parsed JSON value: the
bound value on an object that has the key, `undefined` (modelled `none`)
otherwise.  (On `null` the access throws, but the surrounding
`try { ... } catch` of `loadSettings` then leaves the state exactly as the
all-`none` result does, so `none` is faithful there too.) -/
def getField (v : JSValue) (k : String) : Option JSValue :=
  match v with
  | .objV fields => lookupField fields k
  | _ => none

/-- Property access through the optional result of
`localStorage.getItem` + `JSON.parse`. -/
def fieldOf (stored : Option JSValue) (k : String) : Option JSValue :=
  match stored with
  | none => none
  | some v => getField v k

/-- String coercion applied when a JS value is assigned to
`customTimeInput.value` (array join is approximated by the empty string;
no claim depends on the array case). -/
def jsToDOMString : JSValue → String
  | .nullV => "null"
  | .boolV b => if b then "true" else "false"
  | .numV n => toString n
  | .strV s => s
  | .arrV _ => ""
  | .objV _ => "[object Object]"

/-- The settings-related mutable state: the three state variables
`timestampEnabled`, `timestampMode`, `customDateTime` plus the DOM input
`customTimeInput.value` that `saveSettings` serialises in place of the
`customDateTime` state variable.  `customDateTime` is dynamically typed in
JS and `loadSettings` can assign it any truthy stored value, hence
`JSValue` here; through the normal UI flow it always holds a string. -/
structure SettingsState where
  timestampEnabled : Bool
  timestampMode : String
  customDateTime : JSValue
  customTimeInputValue : String

/-- The in-memory defaults established by the state-variable declarations
(`timestampEnabled = true`, `timestampMode = 'current'`,
`customDateTime = ''`); `init` seeds `customTimeInput.value` with
`toLocalISOString(new Date())`, passed in here. -/
def defaultSettings (inputValue : String) : SettingsState :=
  { timestampEnabled := true, timestampMode := "current",
    customDateTime := .strV "", customTimeInputValue := inputValue }

/-- The record `saveSettings` stringifies and stores (part_000 lines
417-426): note it serialises `customTimeInput.value`, not the
`customDateTime` state variable. -/
def saveSettings (st : SettingsState) : JSValue :=
  .objV [("timestampEnabled", .boolV st.timestampEnabled),
         ("timestampMode", .strV st.timestampMode),
         ("customDateTime", .strV st.customTimeInputValue)]

/-- A full `saveSettings` run against a storage whose write may fail
(`localStorage.setItem` throwing, swallowed by the `try/catch`): the
in-memory state is returned untouched either way, and the stored value is
updated only on success. -/
def saveSettingsRun (writeOk : Bool) (st : SettingsState) : SettingsState × Option JSValue :=
  (st, if writeOk then some (saveSettings st) else none)

/-- First guarded block of `loadSettings`:
the `typeof data.timestampEnabled === 'boolean'` guard and the assignment
it protects (the DOM mirror `timestampToggle.checked` is not tracked). -/
def applyEnabledField (data : JSValue) (st : SettingsState) : SettingsState :=
  match getField data "timestampEnabled" with
  | some (.boolV b) => { st with timestampEnabled := b }
  | _ => st

/-- Second guarded block of `loadSettings`:
`if (data.timestampMode === 'current' || data.timestampMode === 'custom')`
(strict equality with a string succeeds only on that string; the DOM
mirror `timeMode.value` is not tracked). -/
def applyModeField (data : JSValue) (st : SettingsState) : SettingsState :=
  match getField data "timestampMode" with
  | some (.strV m) =>
    if m = "current" ∨ m = "custom" then { st with timestampMode := m } else st
  | _ => st

/-- Third guarded block of `loadSettings`: `if (data.customDateTime)` — a
bare truthiness test — assigning both the state variable and
`customTimeInput.value`. -/
def applyCustomField (data : JSValue) (st : SettingsState) : SettingsState :=
  match getField data "customDateTime" with
  | some v =>
    if truthy v then
      { st with customDateTime := v, customTimeInputValue := jsToDOMString v }
    else st
  | none => st

/-- `loadSettings` (part_000 lines 428-448): the three guarded blocks run
in order on the parsed stored value.  `stored` is the result of
`localStorage.getItem` + `JSON.parse`: `none` when the key is missing or
parsing threw (both leave the state untouched, the latter through the
`catch`), otherwise the parsed value. -/
def loadSettings (stored : Option JSValue) (st : SettingsState) : SettingsState :=
  match stored with
  | none => st
  | some data => applyCustomField data (applyModeField data (applyEnabledField data st))

/-- A stored settings value whose `customDateTime` field is truthy but
not a string. -/
def c8Stored : JSValue := .objV [("customDateTime", .boolV true)]

/-- Statement helper: the stored field would pass the
`typeof data.timestampEnabled === 'boolean'` guard. -/
def isBoolField : Option JSValue → Bool
  | some (.boolV _) => true
  | _ => false

/-- Statement helper: the stored field would pass the
`data.timestampMode === 'current' || data.timestampMode === 'custom'`
guard. -/
def isModeField : Option JSValue → Bool
  | some (.strV m) => decide (m = "current" ∨ m = "custom")
  | _ => false

/-- Statement helper: the stored field is present and truthy. -/
def truthyField : Option JSValue → Bool
  | some v => truthy v
  | none => false

/-- Chronological (calendar) strict order on date-time components. -/
def chronoLt (d1 d2 : JSDateTime) : Prop :=
  d1.year < d2.year ∨ (d1.year = d2.year ∧
    (d1.month0 < d2.month0 ∨ (d1.month0 = d2.month0 ∧
      (d1.day < d2.day ∨ (d1.day = d2.day ∧
        (d1.hour < d2.hour ∨ (d1.hour = d2.hour ∧
          (d1.minute < d2.minute ∨ (d1.minute = d2.minute ∧
            d1.second < d2.second)))))))))

instance (d1 d2 : JSDateTime) : Decidable (chronoLt d1 d2) := by
  unfold chronoLt
  infer_instance

/-- Calendar-plausible component ranges with a four-digit year: the range
within which the formatters produce fixed-width strings. -/
def validRange (d : JSDateTime) : Prop :=
  1000 ≤ d.year ∧ d.year ≤ 9999 ∧ d.month0 < 12 ∧ 1 ≤ d.day ∧ d.day ≤ 31 ∧
    d.hour < 24 ∧ d.minute < 60 ∧ d.second < 60

instance (d : JSDateTime) : Decidable (validRange d) := by
  unfold validRange
  infer_instance

/-- The two decimal digit characters of a number below 100. -/
def twoCharsL (n : Nat) : List Char :=
  [Nat.digitChar (n / 10), Nat.digitChar (n % 10)]

/-- Chronologically, 2 January 2024 00:00:00. -/
def dJan2 : JSDateTime := ⟨2024, 0, 2, 0, 0, 0⟩

/-- Chronologically, 1 February 2024 00:00:00. -/
def dFeb1 : JSDateTime := ⟨2024, 1, 1, 0, 0, 0⟩

/-! ## Helper lemmas: decimal digit strings and lexicographic order -/

theorem string_lt_iff_lex {s t : String} :
    s < t ↔ List.Lex (· < ·) s.data t.data :=
  String.lt_iff_toList_lt

theorem lex_cons_iff {a b : Char} {l1 l2 : List Char} :
    List.Lex (· < ·) (a :: l1) (b :: l2) ↔ a < b ∨ (a = b ∧ List.Lex (· < ·) l1 l2) := by
  constructor
  · intro h
    cases h with
    | cons h => exact Or.inr ⟨rfl, h⟩
    | rel h => exact Or.inl h
  · rintro (h | ⟨rfl, h⟩)
    · exact List.Lex.rel h
    · exact List.Lex.cons h

theorem lex_cons_same {c : Char} {l1 l2 : List Char} :
    List.Lex (· < ·) (c :: l1) (c :: l2) ↔ List.Lex (· < ·) l1 l2 := by
  rw [lex_cons_iff]
  simp

theorem digitChar_lt_iff : ∀ m, m < 10 → ∀ n, n < 10 →
    (Nat.digitChar m < Nat.digitChar n ↔ m < n) := by decide

theorem digitChar_inj : ∀ m, m < 10 → ∀ n, n < 10 →
    (Nat.digitChar m = Nat.digitChar n ↔ m = n) := by decide

theorem pad2_data : ∀ n, n < 100 → (padStart2 (Nat.repr n)).data = twoCharsL n := by decide

theorem toDigitsCore_small (fuel n : Nat) (ds : List Char) (h : n < 10) :
    Nat.toDigitsCore 10 (fuel + 1) n ds = Nat.digitChar n :: ds := by
  unfold Nat.toDigitsCore
  have hdiv : n / 10 = 0 := Nat.div_eq_of_lt h
  simp [hdiv, Nat.mod_eq_of_lt h]

theorem toDigitsCore_step (fuel n : Nat) (ds : List Char) (h : 10 ≤ n) :
    Nat.toDigitsCore 10 (fuel + 2) n ds =
      Nat.toDigitsCore 10 (fuel + 1) (n / 10) (Nat.digitChar (n % 10) :: ds) := by
  conv_lhs => unfold Nat.toDigitsCore
  have hdiv : n / 10 ≠ 0 := by omega
  simp [hdiv]

theorem repr_four_digits (y : Nat) (h1 : 1000 ≤ y) (h2 : y < 10000) :
    (Nat.repr y).data = twoCharsL (y / 100) ++ twoCharsL (y % 100) := by
  have e1 : y + 1 = (y - 1) + 2 := by omega
  have e2 : y - 1 + 1 = (y - 2) + 2 := by omega
  have e3 : y - 2 + 1 = (y - 3) + 2 := by omega
  have h10 : 10 ≤ y / 10 := by omega
  have h100 : 10 ≤ y / 100 := by omega
  have hsmall : y / 1000 < 10 := by omega
  have hd : y / 10 / 10 = y / 100 := by omega
  have hd2 : y / 100 / 10 = y / 1000 := by omega
  show (Nat.toDigits 10 y).asString.data = _
  unfold Nat.toDigits
  rw [e1, toDigitsCore_step _ _ _ (by omega), e2, toDigitsCore_step _ _ _ h10, hd,
    e3, toDigitsCore_step _ _ _ h100, hd2, toDigitsCore_small _ _ _ hsmall]
  show [Nat.digitChar (y / 1000), Nat.digitChar (y / 100 % 10),
      Nat.digitChar (y / 10 % 10), Nat.digitChar (y % 10)] = _
  have q1 : y / 100 / 10 = y / 1000 := hd2
  have q2 : y % 100 / 10 = y / 10 % 10 := by omega
  have q3 : y % 100 % 10 = y % 10 := by omega
  simp [twoCharsL, q1, q2, q3]

theorem twoCharsL_lex_iff (m n : Nat) (hm : m < 100) (hn : n < 100) (t1 t2 : List Char) :
    List.Lex (· < ·) (twoCharsL m ++ t1) (twoCharsL n ++ t2) ↔
      m < n ∨ (m = n ∧ List.Lex (· < ·) t1 t2) := by
  have hm1 : m / 10 < 10 := by omega
  have hn1 : n / 10 < 10 := by omega
  have hm2 : m % 10 < 10 := by omega
  have hn2 : n % 10 < 10 := by omega
  show List.Lex (· < ·) (Nat.digitChar (m / 10) :: Nat.digitChar (m % 10) :: t1)
      (Nat.digitChar (n / 10) :: Nat.digitChar (n % 10) :: t2) ↔ _
  rw [lex_cons_iff, lex_cons_iff, digitChar_lt_iff _ hm1 _ hn1, digitChar_inj _ hm1 _ hn1,
    digitChar_lt_iff _ hm2 _ hn2, digitChar_inj _ hm2 _ hn2]
  constructor
  · rintro (h | ⟨h1, (h | ⟨h2, hP⟩)⟩)
    · exact Or.inl (by omega)
    · exact Or.inl (by omega)
    · exact Or.inr ⟨by omega, hP⟩
  · rintro (h | ⟨rfl, hP⟩)
    · rcases Nat.lt_trichotomy (m / 10) (n / 10) with h' | h' | h'
      · exact Or.inl h'
      · exact Or.inr ⟨h', Or.inl (by omega)⟩
      · omega
    · exact Or.inr ⟨rfl, Or.inr ⟨rfl, hP⟩⟩

theorem twoCharsL_lex_iff_nil (m n : Nat) (hm : m < 100) (hn : n < 100) :
    List.Lex (· < ·) (twoCharsL m) (twoCharsL n) ↔ m < n := by
  rw [← List.append_nil (twoCharsL m), ← List.append_nil (twoCharsL n),
    twoCharsL_lex_iff m n hm hn]
  simp

theorem formatDateTime_v1_data (d : JSDateTime) (h : validRange d) :
    (formatDateTime_v1 (some d)).data =
      twoCharsL (d.year / 100) ++ (twoCharsL (d.year % 100) ++ ('-' ::
        (twoCharsL (d.month0 + 1) ++ ('-' :: (twoCharsL d.day ++ (' ' ::
        (twoCharsL d.hour ++ (':' :: (twoCharsL d.minute ++ (':' ::
        twoCharsL d.second)))))))))) := by
  obtain ⟨h1, h2, h3, h4, h5, h6, h7, h8⟩ := h
  simp only [formatDateTime_v1, String.data_append]
  rw [repr_four_digits _ h1 (by omega), pad2_data _ (by omega), pad2_data _ (by omega),
    pad2_data _ (by omega), pad2_data _ (by omega), pad2_data _ (by omega)]
  simp [List.append_assoc]

theorem formatDateTime_v0_data (d : JSDateTime) (h : validRange d) :
    (formatDateTime_v0 (some d)).data =
      twoCharsL d.day ++ ('/' :: (twoCharsL (d.month0 + 1) ++ ('/' ::
        (twoCharsL (d.year / 100) ++ (twoCharsL (d.year % 100) ++ (' ' ::
        (twoCharsL d.hour ++ (':' :: twoCharsL d.minute)))))))) := by
  obtain ⟨h1, h2, h3, h4, h5, h6, h7, h8⟩ := h
  simp only [formatDateTime_v0, String.data_append]
  rw [repr_four_digits _ h1 (by omega), pad2_data _ (by omega), pad2_data _ (by omega),
    pad2_data _ (by omega), pad2_data _ (by omega)]
  simp [List.append_assoc]

theorem formatDateTime_v1_sortable (d1 d2 : JSDateTime)
    (g1 : validRange d1) (g2 : validRange d2) :
    (formatDateTime_v1 (some d1) < formatDateTime_v1 (some d2)) ↔ chronoLt d1 d2 := by
  rw [string_lt_iff_lex, formatDateTime_v1_data d1 g1, formatDateTime_v1_data d2 g2]
  obtain ⟨a1, a2, a3, a4, a5, a6, a7, a8⟩ := g1
  obtain ⟨b1, b2, b3, b4, b5, b6, b7, b8⟩ := g2
  rw [twoCharsL_lex_iff (d1.year / 100) (d2.year / 100) (by omega) (by omega),
    twoCharsL_lex_iff (d1.year % 100) (d2.year % 100) (by omega) (by omega),
    lex_cons_same,
    twoCharsL_lex_iff (d1.month0 + 1) (d2.month0 + 1) (by omega) (by omega),
    lex_cons_same,
    twoCharsL_lex_iff d1.day d2.day (by omega) (by omega),
    lex_cons_same,
    twoCharsL_lex_iff d1.hour d2.hour (by omega) (by omega),
    lex_cons_same,
    twoCharsL_lex_iff d1.minute d2.minute (by omega) (by omega),
    lex_cons_same,
    twoCharsL_lex_iff_nil d1.second d2.second (by omega) (by omega)]
  unfold chronoLt
  omega

theorem formatDateTime_v0_length (d : JSDateTime) (h : validRange d) :
    (formatDateTime_v0 (some d)).length = 16 := by
  show (formatDateTime_v0 (some d)).data.length = 16
  rw [formatDateTime_v0_data d h]
  simp [twoCharsL]

theorem formatDateTime_v1_length (d : JSDateTime) (h : validRange d) :
    (formatDateTime_v1 (some d)).length = 19 := by
  show (formatDateTime_v1 (some d)).data.length = 19
  rw [formatDateTime_v1_data d h]
  simp [twoCharsL]

/-! ## Claim theorems -/

/-- C1: for every capture with a ready frame (non-zero dimensions) and
every device orientation and facing mode, the exported canvas dimensions
equal the corrected frame dimensions — swapped to height × width exactly
when the device is portrait and the frame landscape, otherwise
width × height; in particular a portrait-device capture of a 1920×1080
frame exports a 1080×1920 image. -/
theorem c1_capture_dimensions :
    (∀ videoWidth videoHeight innerWidth innerHeight facingMode text,
      0 < videoWidth → 0 < videoHeight →
      ∃ r, capturePhoto videoWidth videoHeight innerWidth innerHeight facingMode text = some r ∧
        ((innerWidth < innerHeight ∧ videoHeight < videoWidth →
            r.canvasW = videoHeight ∧ r.canvasH = videoWidth) ∧
         (¬(innerWidth < innerHeight ∧ videoHeight < videoWidth) →
            r.canvasW = videoWidth ∧ r.canvasH = videoHeight))) ∧
    (∀ facingMode text r,
      capturePhoto 1920 1080 1080 1920 facingMode text = some r →
      r.canvasW = 1080 ∧ r.canvasH = 1920) := by
  constructor
  · intro vw vh iw ih f t hw hh
    unfold capturePhoto
    rw [if_neg (by omega)]
    by_cases hrot : iw < ih ∧ vh < vw
    · exact ⟨_, rfl, fun _ => by simp [hrot], fun hn => absurd hrot hn⟩
    · exact ⟨_, rfl, fun hr => absurd hr hrot, fun _ => by simp [hrot]⟩
  · intro f t r h
    unfold capturePhoto at h
    rw [if_neg (by omega)] at h
    simp only [Option.some.injEq] at h
    subst h
    exact ⟨rfl, rfl⟩

/-- C1 witness: the concrete portrait-device 1920×1080 scenario. -/
theorem c1_witness :
    ∃ r, capturePhoto 1920 1080 1080 1920 "environment" "" = some r ∧
      r.canvasW = 1080 ∧ r.canvasH = 1920 := by
  obtain ⟨r, hr, hpos, _⟩ :=
    c1_capture_dimensions.1 1920 1080 1080 1920 "environment" "" (by decide) (by decide)
  exact ⟨r, hr, hpos (by decide)⟩

/-- C2 counterexample: the part_000 `formatDateTime` renders
day-first (`DD/MM/YYYY HH:MM`), so on the valid dates 2 January 2024 and
1 February 2024 the lexicographic order of the outputs is the reverse of
the chronological order, refuting the claimed sortability. -/
theorem c2_counterexample :
    validRange dJan2 ∧ validRange dFeb1 ∧ chronoLt dJan2 dFeb1 ∧
      formatDateTime_v0 (some dFeb1) < formatDateTime_v0 (some dJan2) := by
  refine ⟨by decide, by decide, by decide, ?_⟩
  rw [string_lt_iff_lex]
  decide

/-- C2 amended: both variants return the empty string on an invalid date;
on valid dates with four-digit years both produce fixed-width zero-padded
strings (16 characters for part_000, 19 for part_001); and the part_001
variant (`YYYY-MM-DD HH:MM:SS`) — but not the part_000 one — is sortable:
its lexicographic order agrees with chronological order. -/
theorem c2_formatDateTime_amended :
    formatDateTime_v0 none = "" ∧ formatDateTime_v1 none = "" ∧
    (∀ d, validRange d → (formatDateTime_v0 (some d)).length = 16 ∧
      (formatDateTime_v1 (some d)).length = 19) ∧
    (∀ d1 d2, validRange d1 → validRange d2 →
      (formatDateTime_v1 (some d1) < formatDateTime_v1 (some d2) ↔ chronoLt d1 d2)) :=
  ⟨rfl, rfl, fun d h => ⟨formatDateTime_v0_length d h, formatDateTime_v1_length d h⟩,
    fun d1 d2 g1 g2 => formatDateTime_v1_sortable d1 d2 g1 g2⟩

/-- C2 witness: the amended statement evaluated on the two concrete
dates. -/
theorem c2_witness :
    (formatDateTime_v0 (some dJan2)).length = 16 ∧
      (formatDateTime_v1 (some dJan2) < formatDateTime_v1 (some dFeb1) ↔ chronoLt dJan2 dFeb1) :=
  ⟨(c2_formatDateTime_amended.2.2.1 dJan2 (by decide)).1,
   c2_formatDateTime_amended.2.2.2 dJan2 dFeb1 (by decide) (by decide)⟩

/-- C3: the drawn frame goes through the horizontal mirror of the raw
sensor frame exactly when the facing mode is the front (`user`) camera:
the front-camera draw mapping equals the rear-camera mapping precomposed
with `hmirror`, any non-`user` facing mode draws exactly like the rear
camera, and (for a non-degenerate frame) the two mappings genuinely
differ; this holds for every device orientation, covering both the
rotated and non-rotated cases. -/
theorem c3_mirroring :
    ∀ videoWidth videoHeight innerWidth innerHeight p,
      (captureDrawMap videoWidth videoHeight innerWidth innerHeight "user" p =
        captureDrawMap videoWidth videoHeight innerWidth innerHeight "environment"
          (hmirror videoWidth p)) ∧
      (∀ facingMode, facingMode ≠ "user" →
        captureDrawMap videoWidth videoHeight innerWidth innerHeight facingMode p =
          captureDrawMap videoWidth videoHeight innerWidth innerHeight "environment" p) ∧
      (0 < videoWidth →
        captureDrawMap videoWidth videoHeight innerWidth innerHeight "user" (0, 0) ≠
          captureDrawMap videoWidth videoHeight innerWidth innerHeight "environment" (0, 0)) := by
  intro vw vh iw ih p
  refine ⟨?_, ?_, ?_⟩
  · simp [captureDrawMap]
  · intro f hf
    simp [captureDrawMap, hf]
  · intro hw
    by_cases hrot : iw < ih ∧ vh < vw
    · simp [captureDrawMap, hmirror, hrot, Prod.ext_iff]
      omega
    · simp [captureDrawMap, hmirror, hrot, Prod.ext_iff]
      omega

/-- C3 witness: concrete instance of the mirror relation and the
non-`user` case. -/
theorem c3_witness :
    (captureDrawMap 4 2 1 2 "user" (1, 1) =
      captureDrawMap 4 2 1 2 "environment" (hmirror 4 (1, 1))) ∧
    (captureDrawMap 4 2 1 2 "environment" (1, 1) =
      captureDrawMap 4 2 1 2 "environment" (1, 1)) ∧
    (captureDrawMap 4 2 1 2 "user" (0, 0) ≠ captureDrawMap 4 2 1 2 "environment" (0, 0)) :=
  ⟨(c3_mirroring 4 2 1 2 (1, 1)).1,
   (c3_mirroring 4 2 1 2 (1, 1)).2.1 "environment" (by decide),
   (c3_mirroring 4 2 1 2 (1, 1)).2.2 (by decide)⟩

/-- C5: with the timestamp disabled, `getTimestampText` returns the empty
string for every mode, custom value, parser and clock, and consequently a
capture made with that text draws no timestamp into the exported image. -/
theorem c5_disabled_no_text :
    ∀ fmt parseDate now timestampMode customDateTime,
      getTimestampText fmt parseDate now false timestampMode customDateTime = "" ∧
      (∀ videoWidth videoHeight innerWidth innerHeight facingMode r,
        capturePhoto videoWidth videoHeight innerWidth innerHeight facingMode
            (getTimestampText fmt parseDate now false timestampMode customDateTime) = some r →
        r.timestampText = none) := by
  intro fmt parse now mode custom
  refine ⟨rfl, ?_⟩
  intro vw vh iw ih f r hr
  unfold capturePhoto at hr
  by_cases h0 : vw = 0 ∨ vh = 0
  · rw [if_pos h0] at hr
    exact absurd hr (by simp)
  · rw [if_neg h0] at hr
    simp only [Option.some.injEq] at hr
    subst hr
    rfl

/-- C5 witness: a concrete disabled-timestamp capture. -/
theorem c5_witness :
    (getTimestampText formatDateTime_v0 (fun _ => none) dJan2 false "custom" "x" = "") ∧
    ({ canvasW := 2, canvasH := 2, rotated := false, mirrored := true,
       timestampText := none, mime := "image/jpeg", quality := 92 / 100 } :
        CaptureResult).timestampText = none :=
  ⟨(c5_disabled_no_text formatDateTime_v0 (fun _ => none) dJan2 "custom" "x").1,
   (c5_disabled_no_text formatDateTime_v0 (fun _ => none) dJan2 "custom" "x").2
      2 2 1 1 "user" _ rfl⟩

/-- C7: `capturePhoto` always exports through `toBlob` with MIME type
`image/jpeg` at fixed quality 0.92; a not-ready frame (zero width or
height) aborts before drawing, and a `null` encoder result aborts in the
callback — in both failure cases no image is produced, the captured blob
and preview state are unchanged, and no error UI is touched (the camera
overlay is never modified by a capture). -/
theorem c7_encode_and_silent_failure :
    (∀ videoWidth videoHeight innerWidth innerHeight facingMode text r,
      capturePhoto videoWidth videoHeight innerWidth innerHeight facingMode text = some r →
      r.mime = "image/jpeg" ∧ r.quality = 92 / 100) ∧
    (∀ videoWidth videoHeight innerWidth innerHeight facingMode text encodeResult st,
      videoWidth = 0 ∨ videoHeight = 0 →
      capturePhoto videoWidth videoHeight innerWidth innerHeight facingMode text = none ∧
      capturePhotoRun videoWidth videoHeight innerWidth innerHeight facingMode text
        encodeResult st = st) ∧
    (∀ videoWidth videoHeight innerWidth innerHeight facingMode text st,
      capturePhotoRun videoWidth videoHeight innerWidth innerHeight facingMode text none st = st) ∧
    (∀ videoWidth videoHeight innerWidth innerHeight facingMode text encodeResult st,
      (capturePhotoRun videoWidth videoHeight innerWidth innerHeight facingMode text
        encodeResult st).cameraOverlay = st.cameraOverlay) := by
  refine ⟨?_, ?_, ?_, ?_⟩
  · intro vw vh iw ih f t r hr
    unfold capturePhoto at hr
    by_cases h0 : vw = 0 ∨ vh = 0
    · rw [if_pos h0] at hr
      exact absurd hr (by simp)
    · rw [if_neg h0] at hr
      simp only [Option.some.injEq] at hr
      subst hr
      exact ⟨rfl, rfl⟩
  · intro vw vh iw ih f t enc st h0
    have hc : capturePhoto vw vh iw ih f t = none := by
      unfold capturePhoto
      rw [if_pos h0]
    refine ⟨hc, ?_⟩
    unfold capturePhotoRun
    rw [hc]
  · intro vw vh iw ih f t st
    unfold capturePhotoRun
    cases capturePhoto vw vh iw ih f t <;> rfl
  · intro vw vh iw ih f t enc st
    unfold capturePhotoRun
    cases capturePhoto vw vh iw ih f t with
    | none => rfl
    | some r =>
      cases enc <;> rfl

/-- C7 witness: not-ready frame and failed encoding on a concrete
state. -/
theorem c7_witness :
    capturePhoto 0 1080 1080 1920 "user" "t" = none ∧
      capturePhotoRun 0 1080 1080 1920 "user" "t" (some 7)
        { capturedBlob := none, previewShown := false, cameraOverlay := none } =
        { capturedBlob := none, previewShown := false, cameraOverlay := none } :=
  c7_encode_and_silent_failure.2.1 0 1080 1080 1920 "user" "t" (some 7)
    { capturedBlob := none, previewShown := false, cameraOverlay := none } (by decide)

/-- C9: `sharePhoto` never changes the photo state (captured blob,
preview, error overlay); a rejection named `AbortError` (user dismissing
the native dialog) logs nothing, while any other rejection of an actually
started share is logged. -/
theorem c9_share_abort :
    ∀ hasShareApi outcome st,
      (sharePhoto hasShareApi outcome st).1 = st ∧
      (sharePhoto hasShareApi (ShareOutcome.errorNamed "AbortError") st).2 = false ∧
      (st.capturedBlob ≠ none → hasShareApi = true → ∀ n, n ≠ "AbortError" →
        (sharePhoto hasShareApi (ShareOutcome.errorNamed n) st).2 = true) := by
  intro api oc st
  refine ⟨?_, ?_, ?_⟩
  · unfold sharePhoto
    by_cases h : st.capturedBlob = none ∨ api = false
    · rw [if_pos h]
    · rw [if_neg h]
      cases oc <;> rfl
  · unfold sharePhoto
    by_cases h : st.capturedBlob = none ∨ api = false
    · rw [if_pos h]
    · rw [if_neg h]
      simp
  · intro hb hapi n hn
    unfold sharePhoto
    rw [if_neg (by simp [hb, hapi])]
    simp [hn]

/-- C9 witness: a dismissed dialog and a distinct failure on a concrete
state with a captured blob. -/
theorem c9_witness :
    (sharePhoto true (ShareOutcome.errorNamed "AbortError")
      { capturedBlob := some 3, previewShown := true, cameraOverlay := none }).2 = false ∧
    (sharePhoto true (ShareOutcome.errorNamed "NotAllowedError")
      { capturedBlob := some 3, previewShown := true, cameraOverlay := none }).2 = true :=
  ⟨(c9_share_abort true (ShareOutcome.errorNamed "AbortError")
      { capturedBlob := some 3, previewShown := true, cameraOverlay := none }).2.1,
   (c9_share_abort true (ShareOutcome.errorNamed "NotAllowedError")
      { capturedBlob := some 3, previewShown := true, cameraOverlay := none }).2.2
      (by simp) rfl "NotAllowedError" (by decide)⟩

/-- C10: with the timestamp enabled and mode `custom` but an empty
`customDateTime`, both variants of `getTimestampText` fall back to
formatting the current time; the custom value is parsed and formatted
only when it is non-empty (and in non-custom modes the current time is
always used). -/
theorem c10_custom_empty_fallback :
    ∀ parseDate now customDateTime,
      (getTimestampText_v0 parseDate now true "custom" "" = formatDateTime_v0 (some now) ∧
       getTimestampText_v1 parseDate now true "custom" "" = formatDateTime_v1 (some now)) ∧
      (customDateTime ≠ "" →
        getTimestampText_v0 parseDate now true "custom" customDateTime =
          formatDateTime_v0 (parseDate customDateTime) ∧
        getTimestampText_v1 parseDate now true "custom" customDateTime =
          formatDateTime_v1 (parseDate customDateTime)) ∧
      (∀ timestampMode, timestampMode ≠ "custom" →
        getTimestampText_v0 parseDate now true timestampMode customDateTime =
          formatDateTime_v0 (some now) ∧
        getTimestampText_v1 parseDate now true timestampMode customDateTime =
          formatDateTime_v1 (some now)) := by
  intro parse now custom
  refine ⟨⟨rfl, rfl⟩, ?_, ?_⟩
  · intro hc
    constructor <;>
      · show getTimestampText _ parse now true "custom" custom = _
        unfold getTimestampText
        rw [if_neg (by decide), if_pos ⟨rfl, hc⟩]
  · intro mode hm
    constructor <;>
      · show getTimestampText _ parse now true mode custom = _
        unfold getTimestampText
        rw [if_neg (by decide), if_neg (fun hc => hm hc.1)]

/-- C10 witness: concrete parser and dates for the fallback, the
non-empty custom case and the non-custom mode. -/
theorem c10_witness :
    (getTimestampText_v0 (fun _ => some dFeb1) dJan2 true "custom" "" =
      formatDateTime_v0 (some dJan2)) ∧
    (getTimestampText_v0 (fun _ => some dFeb1) dJan2 true "custom" "x" =
      formatDateTime_v0 (some dFeb1)) ∧
    (getTimestampText_v1 (fun _ => some dFeb1) dJan2 true "current" "x" =
      formatDateTime_v1 (some dJan2)) :=
  ⟨(c10_custom_empty_fallback (fun _ => some dFeb1) dJan2 "x").1.1,
   ((c10_custom_empty_fallback (fun _ => some dFeb1) dJan2 "x").2.1 (by decide)).1,
   ((c10_custom_empty_fallback (fun _ => some dFeb1) dJan2 "x").2.2 "current" (by decide)).2⟩

/-! ## Field-preservation lemmas for the settings loader -/

theorem applyEnabledField_mode (data : JSValue) (st : SettingsState) :
    (applyEnabledField data st).timestampMode = st.timestampMode := by
  unfold applyEnabledField
  cases getField data "timestampEnabled" with
  | none => rfl
  | some v => cases v <;> rfl

theorem applyEnabledField_custom (data : JSValue) (st : SettingsState) :
    (applyEnabledField data st).customDateTime = st.customDateTime := by
  unfold applyEnabledField
  cases getField data "timestampEnabled" with
  | none => rfl
  | some v => cases v <;> rfl

theorem applyModeField_enabled (data : JSValue) (st : SettingsState) :
    (applyModeField data st).timestampEnabled = st.timestampEnabled := by
  unfold applyModeField
  cases getField data "timestampMode" with
  | none => rfl
  | some v =>
    cases v with
    | nullV => rfl
    | boolV b => rfl
    | numV n => rfl
    | strV m => by_cases hm : m = "current" ∨ m = "custom" <;> simp [hm]
    | arrV l => rfl
    | objV l => rfl

theorem applyModeField_custom (data : JSValue) (st : SettingsState) :
    (applyModeField data st).customDateTime = st.customDateTime := by
  unfold applyModeField
  cases getField data "timestampMode" with
  | none => rfl
  | some v =>
    cases v with
    | nullV => rfl
    | boolV b => rfl
    | numV n => rfl
    | strV m => by_cases hm : m = "current" ∨ m = "custom" <;> simp [hm]
    | arrV l => rfl
    | objV l => rfl

theorem applyCustomField_enabled (data : JSValue) (st : SettingsState) :
    (applyCustomField data st).timestampEnabled = st.timestampEnabled := by
  unfold applyCustomField
  cases getField data "customDateTime" with
  | none => rfl
  | some v => cases htv : truthy v <;> simp [htv]

theorem applyCustomField_mode (data : JSValue) (st : SettingsState) :
    (applyCustomField data st).timestampMode = st.timestampMode := by
  unfold applyCustomField
  cases getField data "customDateTime" with
  | none => rfl
  | some v => cases htv : truthy v <;> simp [htv]

/-- C4 counterexample: at the startup state — in-memory `customDateTime`
still the default empty string while `init` has seeded
`customTimeInput.value` with the current time — saving and then loading
does not reproduce the settings triple: `customDateTime` becomes the
seeded input value, because `saveSettings` serialises
`customTimeInput.value` rather than the `customDateTime` state
variable. -/
theorem c4_counterexample :
    (loadSettings (some (saveSettings (defaultSettings "2024-01-01T00:00")))
        (defaultSettings "2024-01-01T00:00")).customDateTime =
      JSValue.strV "2024-01-01T00:00" ∧
    (defaultSettings "2024-01-01T00:00").customDateTime = JSValue.strV "" ∧
    JSValue.strV "2024-01-01T00:00" ≠ JSValue.strV "" := by
  refine ⟨rfl, rfl, ?_⟩
  intro h
  exact absurd (JSValue.strV.inj h) (by decide)

/-- C4 amended: saving and then loading reproduces the
`{timestampEnabled, timestampMode, customDateTime}` triple whenever the
custom-time input value coincides with the in-memory `customDateTime`
(which the `input` event handler maintains after any user edit); in
general loading sets `customDateTime` to the serialised input value. -/
theorem c4_roundtrip_amended :
    ∀ st, st.customDateTime = JSValue.strV st.customTimeInputValue →
      (loadSettings (some (saveSettings st)) st).timestampEnabled = st.timestampEnabled ∧
      (loadSettings (some (saveSettings st)) st).timestampMode = st.timestampMode ∧
      (loadSettings (some (saveSettings st)) st).customDateTime = st.customDateTime := by
  intro st h
  have hE : applyEnabledField (saveSettings st) st = st := rfl
  have hM : applyModeField (saveSettings st) st = st := by
    unfold applyModeField
    rw [show getField (saveSettings st) "timestampMode" =
        some (JSValue.strV st.timestampMode) from rfl]
    show (if st.timestampMode = "current" ∨ st.timestampMode = "custom" then
        { st with timestampMode := st.timestampMode } else st) = st
    split <;> rfl
  have hL : loadSettings (some (saveSettings st)) st = st := by
    simp only [loadSettings, hE, hM]
    unfold applyCustomField
    rw [show getField (saveSettings st) "customDateTime" =
        some (JSValue.strV st.customTimeInputValue) from rfl]
    show (if truthy (JSValue.strV st.customTimeInputValue) = true then
        { st with
          customDateTime := JSValue.strV st.customTimeInputValue,
          customTimeInputValue := st.customTimeInputValue }
      else st) = st
    by_cases hv : st.customTimeInputValue = ""
    · rw [if_neg (by simp [truthy, hv])]
    · rw [if_pos (by simp [truthy, hv]), ← h]
  rw [hL]
  exact ⟨rfl, rfl, rfl⟩

/-- C4 witness: the round trip at a state whose input value matches the
in-memory `customDateTime`. -/
theorem c4_witness :
    (loadSettings (some (saveSettings (defaultSettings ""))) (defaultSettings "")).timestampEnabled =
        (defaultSettings "").timestampEnabled ∧
      (loadSettings (some (saveSettings (defaultSettings ""))) (defaultSettings "")).timestampMode =
        (defaultSettings "").timestampMode ∧
      (loadSettings (some (saveSettings (defaultSettings ""))) (defaultSettings "")).customDateTime =
        (defaultSettings "").customDateTime :=
  c4_roundtrip_amended (defaultSettings "") rfl

/-- C6: every camera-start failure is mapped (totally and
deterministically) to exactly one of the four classes
permission-denied / no-device / unsupported-api / other; the four classes
carry pairwise distinct titles, messages and button labels; the
unsupported-api class alone has no retry button; and the
permission-denied overlay shows `Camera access denied` with a
`Grant Camera Access` button whose installed click handler re-invokes
`startCamera`. -/
theorem c6_error_classification :
    (∀ f, startCameraFailureOverlay f = overlayOfKind (classifyFailure f)) ∧
    (∀ k1 k2, k1 ≠ k2 →
      (overlayOfKind k1).title ≠ (overlayOfKind k2).title ∧
      (overlayOfKind k1).message ≠ (overlayOfKind k2).message ∧
      (overlayOfKind k1).button ≠ (overlayOfKind k2).button) ∧
    ((overlayOfKind FailureKind.unsupportedApi).button = none ∧
      ∀ k, k ≠ FailureKind.unsupportedApi → (overlayOfKind k).button.isSome = true) ∧
    ((overlayOfKind FailureKind.permissionDenied).title = "Camera access denied" ∧
      (overlayOfKind FailureKind.permissionDenied).button = some "Grant Camera Access" ∧
      overlayRetryAction (overlayOfKind FailureKind.permissionDenied) =
        some UIAction.startCameraAction) := by
  refine ⟨?_, ?_, ⟨rfl, ?_⟩, rfl, rfl, rfl⟩
  · intro f
    cases f with
    | apiUnsupported => rfl
    | errorNamed n =>
      simp only [startCameraFailureOverlay, classifyFailure]
      by_cases h1 : n = "NotAllowedError" ∨ n = "PermissionDeniedError"
      · rw [if_pos h1, if_pos h1]
        rfl
      · rw [if_neg h1, if_neg h1]
        by_cases h2 : n = "NotFoundError" ∨ n = "DevicesNotFoundError"
        · rw [if_pos h2, if_pos h2]
          rfl
        · rw [if_neg h2, if_neg h2]
          rfl
  · intro k1 k2 hne
    cases k1 <;> cases k2 <;>
      first
        | exact absurd rfl hne
        | exact ⟨by decide, by decide, by decide⟩
  · intro k hk
    cases k with
    | permissionDenied => rfl
    | noDevice => rfl
    | unsupportedApi => exact absurd rfl hk
    | other => rfl

/-- C6 witness: the permission-denied scenario and one distinctness
instance. -/
theorem c6_witness :
    startCameraFailureOverlay (CameraFailure.errorNamed "NotAllowedError") =
      overlayOfKind (classifyFailure (CameraFailure.errorNamed "NotAllowedError")) ∧
    (overlayOfKind FailureKind.permissionDenied).title ≠
      (overlayOfKind FailureKind.noDevice).title ∧
    (overlayOfKind FailureKind.noDevice).button.isSome = true :=
  ⟨c6_error_classification.1 (CameraFailure.errorNamed "NotAllowedError"),
   (c6_error_classification.2.1 FailureKind.permissionDenied FailureKind.noDevice
      (by decide)).1,
   c6_error_classification.2.2.1.2 FailureKind.noDevice (by decide)⟩

/-- C8 counterexample: a stored record whose `customDateTime` field is
the boolean `true` — present, wrong-typed, and truthy — is assigned
verbatim by `loadSettings` instead of leaving the default empty string:
the guard is a bare truthiness test, not a type check. -/
theorem c8_counterexample :
    (loadSettings (some c8Stored) (defaultSettings "2024-01-01T00:00")).customDateTime =
        JSValue.boolV true ∧
      JSValue.boolV true ≠ JSValue.strV "" := by
  refine ⟨rfl, ?_⟩
  intro h
  exact JSValue.noConfusion h

/-- C8 amended: `loadSettings` leaves `timestampEnabled` unchanged unless
the stored field is a boolean, leaves `timestampMode` unchanged unless
the stored field is the string `current` or `custom`, and leaves
`customDateTime` unchanged whenever the stored field is absent or falsy
— but assigns any truthy stored `customDateTime` (of any type) verbatim;
a missing key or unparsable stored text leaves the whole state unchanged,
and a `saveSettings` run never modifies the in-memory state even when the
storage write fails. -/
theorem c8_load_defaults_amended :
    ∀ st stored,
      (isBoolField (fieldOf stored "timestampEnabled") = false →
        (loadSettings stored st).timestampEnabled = st.timestampEnabled) ∧
      (isModeField (fieldOf stored "timestampMode") = false →
        (loadSettings stored st).timestampMode = st.timestampMode) ∧
      (truthyField (fieldOf stored "customDateTime") = false →
        (loadSettings stored st).customDateTime = st.customDateTime) ∧
      (∀ v, fieldOf stored "customDateTime" = some v → truthy v = true →
        (loadSettings stored st).customDateTime = v) ∧
      (∀ writeOk, (saveSettingsRun writeOk st).1 = st) := by
  intro st stored
  cases stored with
  | none =>
    refine ⟨fun _ => rfl, fun _ => rfl, fun _ => rfl, ?_, fun _ => rfl⟩
    intro v hv
    simp [fieldOf] at hv
  | some data =>
    refine ⟨?_, ?_, ?_, ?_, fun _ => rfl⟩
    · intro h
      simp only [fieldOf] at h
      simp only [loadSettings]
      rw [applyCustomField_enabled, applyModeField_enabled]
      unfold applyEnabledField
      cases hg : getField data "timestampEnabled" with
      | none => rfl
      | some v =>
        cases v with
        | nullV => rfl
        | boolV b => rw [hg] at h; simp [isBoolField] at h
        | numV n => rfl
        | strV s => rfl
        | arrV l => rfl
        | objV l => rfl
    · intro h
      simp only [fieldOf] at h
      simp only [loadSettings]
      rw [applyCustomField_mode]
      unfold applyModeField
      cases hg : getField data "timestampMode" with
      | none => exact applyEnabledField_mode data st
      | some v =>
        cases v with
        | nullV => exact applyEnabledField_mode data st
        | boolV b => exact applyEnabledField_mode data st
        | numV n => exact applyEnabledField_mode data st
        | strV m =>
          rw [hg] at h
          simp only [isModeField, decide_eq_false_iff_not] at h
          show (if m = "current" ∨ m = "custom" then
              { applyEnabledField data st with timestampMode := m }
            else applyEnabledField data st).timestampMode = st.timestampMode
          rw [if_neg h]
          exact applyEnabledField_mode data st
        | arrV l => exact applyEnabledField_mode data st
        | objV l => exact applyEnabledField_mode data st
    · intro h
      simp only [fieldOf] at h
      simp only [loadSettings]
      unfold applyCustomField
      cases hg : getField data "customDateTime" with
      | none => rw [applyModeField_custom, applyEnabledField_custom]
      | some v =>
        rw [hg] at h
        simp only [truthyField] at h
        show (if truthy v = true then
            { applyModeField data (applyEnabledField data st) with
              customDateTime := v,
              customTimeInputValue := jsToDOMString v }
          else applyModeField data (applyEnabledField data st)).customDateTime =
          st.customDateTime
        rw [if_neg (by simp [h])]
        rw [applyModeField_custom, applyEnabledField_custom]
    · intro v hv htv
      simp only [fieldOf] at hv
      simp only [loadSettings]
      unfold applyCustomField
      rw [hv]
      show (if truthy v = true then
          { applyModeField data (applyEnabledField data st) with
            customDateTime := v,
            customTimeInputValue := jsToDOMString v }
        else applyModeField data (applyEnabledField data st)).customDateTime = v
      rw [if_pos htv]

/-- C8 witness: an empty stored object leaves every default in place, and
the wrong-typed truthy `customDateTime` is assigned verbatim. -/
theorem c8_witness :
    (loadSettings (some (JSValue.objV [])) (defaultSettings "x")).timestampEnabled =
        (defaultSettings "x").timestampEnabled ∧
      (loadSettings (some (JSValue.objV [])) (defaultSettings "x")).timestampMode =
        (defaultSettings "x").timestampMode ∧
      (loadSettings (some (JSValue.objV [])) (defaultSettings "x")).customDateTime =
        (defaultSettings "x").customDateTime ∧
      (loadSettings (some c8Stored) (defaultSettings "x")).customDateTime =
        JSValue.boolV true :=
  ⟨(c8_load_defaults_amended (defaultSettings "x") (some (JSValue.objV []))).1 rfl,
   (c8_load_defaults_amended (defaultSettings "x") (some (JSValue.objV []))).2.1 rfl,
   (c8_load_defaults_amended (defaultSettings "x") (some (JSValue.objV []))).2.2.1 rfl,
   (c8_load_defaults_amended (defaultSettings "x") (some c8Stored)).2.2.2.1
      (JSValue.boolV true) rfl rfl⟩

end TsCamera
